import Mathlib

/-!
Verification development for the GeoGlim clip-and-serve pipeline
(backend/main.py, backend/config.py, backend/services/clip_service.py,
backend/utils/validation.py), shallowly embedded in Lean 4.

Modelling conventions:
* JSON values are an inductive `Json`; JSON numbers are modelled as `Int`
  (the claims under study only involve integral coordinates).
* Uploaded bytes are modelled by their observable parse outcome
  (`ByteData`): not UTF-8, UTF-8 but not JSON, or a parsed JSON value,
  each carrying the byte length of the original payload.
* The external GIS engine (geopandas/shapely/fiona) is a black box in the
  source; its operations are modelled as follows:
  - `gpd.read_file(StringIO(...))` on GeoJSON text is `readGeoJson`,
    which understands FeatureCollection / Feature / bare-geometry objects
    with Point, LineString and single-ring Polygon coordinates, and reads
    a legacy top-level "crs" member when present (no "crs" member means
    the frame has no declared CRS, matching the code path that tests
    `gdf.crs is None`);
  - shapely validity (`.is_valid`) is `Geometry.is_valid`: points are
    valid, linestrings need at least two points, polygon rings must be
    closed, have at least four positions and be simple (no two
    non-adjacent edges intersect), decided with exact integer
    orientation tests;
  - reprojection (`.to_crs`) is modelled as retagging the frame with the
    target CRS (the coordinate transformation itself is engine-internal);
  - `gpd.overlay(df1, df2, how="intersection")` is `overlay`: the full
    pairwise intersection, keeping a feature for every pair whose
    geometric intersection is non-empty, with the attribute columns of
    both inputs and the CRS of the first input; geometric intersection
    `interG` is realised exactly on axis-aligned rectangle polygons
    (a non-rectangle pair is modelled as a non-overlapping pair, which
    suffices for the claims, all conditional on intersection emptiness);
  - `gdf.to_file` on a named temporary file is modelled as succeeding and
    returning the temporary path.
* File-system state is a `FileSystem` record: which paths exist, and what
  `gpd.read_file(path, layer)` yields there (`none` = missing/unreadable).
* The FastAPI route `POST /clip/{dataset}` is `clip_dataset`; the
  try/except body is modelled by an inner `Except PyExc Response`
  computation whose error is turned into a 500 response by the trailing
  `except Exception` handler, exactly as in backend/main.py lines 69-112.
  Note that fastapi.HTTPException derives from Exception, so the 404/413
  and validation 400 raised inside the try block are caught there too.
* Alongside each result we thread the cache dictionary of `ClipService`
  and a counter of `gpd.read_file` dataset loads, so that cache mutation
  and storage access can be stated.
-/

namespace GeoGlim

/-- JSON values as parsed by json.loads (numbers restricted to integers). -/
inductive Json where
  | null : Json
  | bool (b : Bool) : Json
  | num (n : Int) : Json
  | str (s : String) : Json
  | arr (xs : List Json) : Json
  | obj (kvs : List (String × Json)) : Json

/-- Lookup of a key in a JSON object body (python dict access). -/
def jlookup : List (String × Json) → String → Option Json
  | [], _ => none
  | (k, v) :: rest, key => if k = key then some v else jlookup rest key

/-- Planar geometries, as shapely builds them from GeoJSON coordinates.
Polygons are single (hole-free) rings, which covers every AOI shape the
claims exercise. -/
inductive Geometry where
  | point (x y : Int) : Geometry
  | lineString (pts : List (Int × Int)) : Geometry
  | polygon (ring : List (Int × Int)) : Geometry
deriving DecidableEq

/-- Orientation of the triple a, b, c: the sign of the cross product of
(b - a) and (c - a). Positive = counterclockwise, 0 = collinear. -/
def orient (a b c : Int × Int) : Int :=
  (b.1 - a.1) * (c.2 - a.2) - (b.2 - a.2) * (c.1 - a.1)

/-- Test that point c lies on the closed axis-aligned bounding box of the
segment a-b (used together with collinearity for on-segment tests). -/
def inSegBox (a b c : Int × Int) : Bool :=
  min a.1 b.1 ≤ c.1 && c.1 ≤ max a.1 b.1 && min a.2 b.2 ≤ c.2 && c.2 ≤ max a.2 b.2

/-- Exact test that closed segments p1-q1 and p2-q2 have a common point. -/
def segsIntersect (p1 q1 p2 q2 : Int × Int) : Bool :=
  let o1 := orient p1 q1 p2
  let o2 := orient p1 q1 q2
  let o3 := orient p2 q2 p1
  let o4 := orient p2 q2 q1
  (o1 * o2 < 0 && o3 * o4 < 0) ||
  (o1 = 0 && inSegBox p1 q1 p2) ||
  (o2 = 0 && inSegBox p1 q1 q2) ||
  (o3 = 0 && inSegBox p2 q2 p1) ||
  (o4 = 0 && inSegBox p2 q2 q1)

/-- Consecutive edges of a ring given as a list of positions (the ring is
stored closed: its last position repeats the first). -/
def ringEdges : List (Int × Int) → List ((Int × Int) × (Int × Int))
  | a :: b :: rest => (a, b) :: ringEdges (b :: rest)
  | _ => []

/-- Simplicity of a closed ring: no two non-adjacent edges meet.  Edge i
and edge j are adjacent when they are consecutive, or when they are the
first and last edge of the ring (which share the closing vertex). -/
def ringSimple (ring : List (Int × Int)) : Bool :=
  let es := ringEdges ring
  let n := es.length
  (List.range n).all fun i =>
    (List.range n).all fun j =>
      if i + 1 < j && ¬(i = 0 && j = n - 1) then
        match es[i]?, es[j]? with
        | some e1, some e2 => ¬ segsIntersect e1.1 e1.2 e2.1 e2.2
        | _, _ => true
      else true

/-- Model of the shapely validity predicate consulted by
`gdf.geometry.is_valid` in backend/utils/validation.py line 41. -/
def Geometry.is_valid : Geometry → Bool
  | .point _ _ => true
  | .lineString pts => pts.length ≥ 2
  | .polygon ring =>
      ring.length ≥ 4 && ring.head? = ring.getLast? && ringSimple ring

/-- Feature record of a GeoDataFrame row: attribute columns plus geometry. -/
structure Feature where
  attrs : List (String × Json)
  geometry : Geometry

/-- Model of a geopandas GeoDataFrame: feature rows plus an optional CRS. -/
structure GeoDataFrame where
  features : List Feature
  crs : Option String

/-- Declared CRS of a GeoJSON payload: its legacy top-level "crs" member
(`\x7b"crs": \x7b"type": "name", "properties": \x7b"name": ...\x7d\x7d\x7d`),
when present. -/
def jsonCrs (kvs : List (String × Json)) : Option String :=
  match jlookup kvs "crs" with
  | some (.obj c) =>
      match jlookup c "properties" with
      | some (.obj p) =>
          match jlookup p "name" with
          | some (.str s) => some s
          | _ => none
      | _ => none
  | _ => none

/-- Parse one GeoJSON position (a two-element number array). -/
def parsePos : Json → Option (Int × Int)
  | .arr [.num x, .num y] => some (x, y)
  | _ => none

/-- Parse a GeoJSON position list. -/
def parsePosList : Json → Option (List (Int × Int))
  | .arr xs => xs.mapM parsePos
  | _ => none

/-- Parse a GeoJSON geometry object into a `Geometry`. -/
def parseGeometry (j : Json) : Option Geometry :=
  match j with
  | .obj kvs =>
      match jlookup kvs "type", jlookup kvs "coordinates" with
      | some (.str "Point"), some c => (parsePos c).map fun p => .point p.1 p.2
      | some (.str "LineString"), some c => (parsePosList c).map .lineString
      | some (.str "Polygon"), some (.arr [ring]) =>
          (parsePosList ring).map .polygon
      | _, _ => none
  | _ => none

/-- Parse one GeoJSON feature object: geometry plus properties columns. -/
def parseFeature (j : Json) : Option Feature :=
  match j with
  | .obj kvs =>
      match jlookup kvs "geometry" with
      | some g =>
          (parseGeometry g).map fun geom =>
            { attrs :=
                match jlookup kvs "properties" with
                | some (.obj props) => props
                | _ => []
              geometry := geom }
      | none => none
  | _ => none

/-- Model of `gpd.read_file(StringIO(geojson_str))` in
backend/utils/validation.py line 35: build a GeoDataFrame from parsed
GeoJSON, accepting a FeatureCollection, a single Feature, or a bare
geometry object; `none` models the engine raising on unreadable input. -/
def readGeoJson (j : Json) : Option GeoDataFrame :=
  match j with
  | .obj kvs =>
      match jlookup kvs "type" with
      | some (.str "FeatureCollection") =>
          match jlookup kvs "features" with
          | some (.arr fs) =>
              (fs.mapM parseFeature).map fun feats =>
                { features := feats, crs := jsonCrs kvs }
          | _ => none
      | some (.str "Feature") =>
          (parseFeature j).map fun f => { features := [f], crs := jsonCrs kvs }
      | some (.str t) =>
          if t = "Point" || t = "LineString" || t = "Polygon" then
            (parseGeometry j).map fun g =>
              { features := [{ attrs := [], geometry := g }], crs := jsonCrs kvs }
          else none
      | _ => none
  | _ => none

/-- Outcome of parsing the uploaded bytes, with the payload byte length:
bytes that are not UTF-8 text, text that is not JSON, or a JSON value. -/
inductive ByteData where
  | notUtf8 (size : Nat) : ByteData
  | notJson (size : Nat) : ByteData
  | jsonVal (size : Nat) (j : Json) : ByteData

/-- Byte length of the uploaded payload (`len(contents)`). -/
def ByteData.size : ByteData → Nat
  | .notUtf8 n => n
  | .notJson n => n
  | .jsonVal n _ => n

/-- Model of fastapi.HTTPException: a status code and a detail message. -/
structure HTTPExc where
  status_code : Nat
  detail : String

/-- Model of `validate_geojson_file` (backend/utils/validation.py lines
20-59): decode, JSON-parse, check object shape and "type" field, convert
via the GeoJSON reader, reject empty frames and invalid geometries, and
default a missing CRS to EPSG:4326.  Every failure inside the try block
is surfaced as a 400 HTTPException: a json.JSONDecodeError gets the
"Invalid JSON format" detail, every other exception (including the
UnicodeDecodeError and the ValueError raises) the "Invalid GeoJSON file"
detail. -/
def validate_geojson_file : ByteData → Except HTTPExc GeoDataFrame
  | .notUtf8 _ => .error ⟨400, "Invalid GeoJSON file: utf-8 decode failed"⟩
  | .notJson _ => .error ⟨400, "Invalid JSON format: parse error"⟩
  | .jsonVal _ j =>
      match j with
      | .obj kvs =>
          if (jlookup kvs "type").isNone then
            .error ⟨400, "Invalid GeoJSON file: GeoJSON must have a type field"⟩
          else
            match readGeoJson j with
            | none => .error ⟨400, "Invalid GeoJSON file: unreadable geometry data"⟩
            | some gdf =>
                if gdf.features.isEmpty then
                  .error ⟨400, "Invalid GeoJSON file: GeoJSON contains no features"⟩
                else if ¬ gdf.features.all (fun f => f.geometry.is_valid) then
                  .error ⟨400, "Invalid GeoJSON file: GeoJSON contains invalid geometries"⟩
                else
                  .ok (if gdf.crs.isNone then { gdf with crs := some "EPSG:4326" } else gdf)
      | _ => .error ⟨400, "Invalid GeoJSON file: GeoJSON must be a JSON object"⟩

/-- Maximum upload size from backend/config.py line 15: 50 MB. -/
def MAX_FILE_SIZE : Nat := 50 * 1024 * 1024

/-- Resolved on-disk location of the GLiM geodatabase (backend/config.py). -/
def GLIM_PATH : String := "backend/data/LiMW_GIS_2015.gdb/LiMW_GIS 2015.gdb"

/-- Resolved on-disk location of the GLHYMPS shapefile (backend/config.py). -/
def GLHYMPS_PATH : String := "backend/data/GLHYMPS/GLHYMPS.shp"

/-- Model of the Python `str.lower()` call, mapping every character to
lower case (character-list recursion, so that it evaluates). -/
def pyLower (s : String) : String :=
  String.mk (s.data.map Char.toLower)

/-- Model of `get_data_path` (backend/config.py lines 27-38) with
USE_CLOUD_STORAGE = False: the lowercased name is looked up in the fixed
path table, unknown names yield None. -/
def get_data_path (dataset_name : String) : Option String :=
  if pyLower dataset_name = "glim" then some GLIM_PATH
  else if pyLower dataset_name = "glhymps" then some GLHYMPS_PATH
  else none

/-- State of the storage medium: which paths exist, and what
`gpd.read_file(path, layer)` returns there (`none` = the engine raises
because the file is missing or unreadable). -/
structure FileSystem where
  file_exists : String → Bool
  read : String → Option String → Option GeoDataFrame

/-- Model of `is_dataset_available` (backend/config.py lines 40-43):
the resolved path is truthy and exists on disk. -/
def is_dataset_available (fs : FileSystem) (dataset_name : String) : Bool :=
  match get_data_path dataset_name with
  | some p => fs.file_exists p
  | none => false

/-- Dataset cache of ClipService: the `self._dataset_cache` dict keyed by
dataset name (backend/services/clip_service.py line 15). -/
abbrev Cache := List (String × GeoDataFrame)

/-- Dict membership/lookup on the dataset cache. -/
def Cache.lookup : Cache → String → Option GeoDataFrame
  | [], _ => none
  | (k, v) :: rest, key => if k = key then some v else Cache.lookup rest key

/-- Dict assignment `self._dataset_cache[dataset] = full_data`. -/
def Cache.insert : Cache → String → GeoDataFrame → Cache
  | [], key, d => [(key, d)]
  | (k, v) :: rest, key, d =>
      if k = key then (key, d) :: rest else (k, v) :: Cache.insert rest key d

/-- Outcome of the dataset-load step: the loaded frame or the propagated
exception, the cache dict afterwards, and how many `gpd.read_file`
dataset loads were performed. -/
structure LoadOut where
  result : Except String GeoDataFrame
  cache : Cache
  reads : Nat

/-- One `gpd.read_file` call for a dataset, with the per-dataset dispatch
of backend/services/clip_service.py lines 30-35: GLiM is read from the
geodatabase with layer "GLiM_export", everything else as a plain file.
A None path is stringified to "None" before the read, as `str(None)`
does. -/
def read_dataset_file (fs : FileSystem) (dataset : String) : Option GeoDataFrame :=
  let path := match get_data_path dataset with
    | some p => p
    | none => "None"
  if dataset = "glim" then fs.read path (some "GLiM_export")
  else fs.read path none

/-- Model of the load-with-caching step of `ClipService.clip_data`
(backend/services/clip_service.py lines 26-42): a cache hit is returned
with no storage access; otherwise the file is read, and only on success
is the result inserted into the cache (a failed read propagates with the
cache dict untouched). -/
def load_dataset (fs : FileSystem) (cache : Cache) (dataset : String) : LoadOut :=
  match Cache.lookup cache dataset with
  | some d => ⟨.ok d, cache, 0⟩
  | none =>
      match read_dataset_file fs dataset with
      | none => ⟨.error ("failed to read dataset " ++ dataset), cache, 1⟩
      | some d => ⟨.ok d, Cache.insert cache dataset d, 1⟩

/-- Model of `aoi.to_crs(target)`: the engine transforms the coordinates
into the target CRS; observably the frame is retagged with that CRS. -/
def to_crs (g : GeoDataFrame) (c : Option String) : GeoDataFrame :=
  { g with crs := c }

/-- CRS reconciliation of backend/services/clip_service.py lines 44-47:
reproject the AOI to the dataset CRS when they differ; the dataset frame
itself is left untouched. -/
def reconcileAOI (aoi full_data : GeoDataFrame) : GeoDataFrame :=
  if aoi.crs ≠ full_data.crs then to_crs aoi full_data.crs else aoi

/-- Detect an axis-aligned rectangle ring
[(x1,y1),(x2,y1),(x2,y2),(x1,y2),(x1,y1)] with x1 < x2 and y1 < y2. -/
def boxOfRing : List (Int × Int) → Option (Int × Int × Int × Int)
  | [(a, b), (c, d), (e, f), (g, h), (i, j)] =>
      if c > a && f > b && d = b && e = c && g = a && h = f && i = a && j = b then
        some (a, b, c, f)
      else none
  | _ => none

/-- Geometric intersection as delivered by the engine, realised exactly on
axis-aligned rectangle polygons: `none` models an empty intersection. -/
def interG : Geometry → Geometry → Option Geometry
  | .polygon r1, .polygon r2 =>
      match boxOfRing r1, boxOfRing r2 with
      | some (a1, b1, a2, b2), some (c1, d1, c2, d2) =>
          let x1 := max a1 c1
          let y1 := max b1 d1
          let x2 := min a2 c2
          let y2 := min b2 d2
          if x1 < x2 && y1 < y2 then
            some (.polygon [(x1, y1), (x2, y1), (x2, y2), (x1, y2), (x1, y1)])
          else none
      | _, _ => none
  | _, _ => none

/-- Model of `gpd.overlay(df1, df2, how="intersection")`
(backend/services/clip_service.py line 51): one output feature per pair
of input features with non-empty geometric intersection, carrying the
attribute columns of both inputs and the CRS of the first input. -/
def overlay (df1 df2 : GeoDataFrame) : GeoDataFrame :=
  { features :=
      df1.features.flatMap fun f =>
        df2.features.filterMap fun g =>
          (interG f.geometry g.geometry).map fun h =>
            { attrs := f.attrs ++ g.attrs, geometry := h }
    crs := df1.crs }

/-- Format table of `ClipService._save_result`
(backend/services/clip_service.py lines 61-65): suffix and driver per
output format; a missing key models the KeyError of the dict lookup. -/
def format_config (format : String) : Option (String × String) :=
  if format = "geojson" then some (".geojson", "GeoJSON")
  else if format = "shapefile" then some (".shp", "ESRI Shapefile")
  else if format = "gpkg" then some (".gpkg", "GPKG")
  else none

/-- Model of `ClipService._save_result` (lines 59-74): look up the format
configuration, create a named temporary file and write the frame to it
(the engine write is modelled as succeeding), returning the path. -/
def save_result (gdf : GeoDataFrame) (format : String) : Except String String :=
  match format_config format with
  | none => .error ("KeyError: " ++ format)
  | some (suffix, _) =>
      let _ := gdf
      .ok ("tmpfile" ++ suffix)

/-- Outcome of `ClipService.clip_data`: the clipped frame and temporary
file path or the propagated exception, the cache afterwards, and the
number of dataset loads performed. -/
structure ClipOut where
  result : Except String (GeoDataFrame × String)
  cache : Cache
  reads : Nat

/-- Model of `ClipService.clip_data` (backend/services/clip_service.py
lines 17-57): load the dataset through the cache, reconcile the CRS of
the AOI, overlay, and save the result to a temporary file. -/
def clip_data (fs : FileSystem) (cache : Cache) (dataset : String)
    (aoi : GeoDataFrame) (output_format : String) : ClipOut :=
  match load_dataset fs cache dataset with
  | ⟨.error e, c, n⟩ => ⟨.error e, c, n⟩
  | ⟨.ok full_data, c, n⟩ =>
      let aoi2 := reconcileAOI aoi full_data
      let clipped := overlay full_data aoi2
      match save_result clipped output_format with
      | .error e => ⟨.error e, c, n⟩
      | .ok path => ⟨.ok (clipped, path), c, n⟩

/-- Path parameter enum DatasetType (backend/models.py lines 5-7). -/
inductive DatasetType where
  | glim : DatasetType
  | glhymps : DatasetType

/-- String value of the dataset enum member. -/
def DatasetType.value : DatasetType → String
  | .glim => "glim"
  | .glhymps => "glhymps"

/-- Query parameter enum OutputFormat (backend/models.py lines 9-12). -/
inductive OutputFormat where
  | geojson : OutputFormat
  | shapefile : OutputFormat
  | gpkg : OutputFormat

/-- String value of the output-format enum member. -/
def OutputFormat.value : OutputFormat → String
  | .geojson => "geojson"
  | .shapefile => "shapefile"
  | .gpkg => "gpkg"

/-- Python exception in flight inside the route body: either a fastapi
HTTPException or any other exception with its message. -/
inductive PyExc where
  | http (status_code : Nat) (detail : String) : PyExc
  | other (msg : String) : PyExc

/-- String rendering of the exception as interpolated by
`f"Clipping failed: \x7bstr(e)\x7d"` (abstracted to status and detail for
HTTP exceptions). -/
def PyExc.msg : PyExc → String
  | .http code detail => toString code ++ ": " ++ detail
  | .other m => m

/-- HTTP response of the route: status, error detail (empty for a file
response), the X-Feature-Count header and the download filename of a
success. -/
structure Response where
  status_code : Nat
  detail : String
  feature_count : Option Nat
  filename : Option String

/-- Route outcome: the response, the cache dict of the ClipService
afterwards, and the number of dataset loads performed. -/
structure HandlerOut where
  response : Response
  cache : Cache
  reads : Nat

/-- Body of the try block of `clip_dataset` (backend/main.py lines 69-108):
availability check (404), size check (413), AOI validation (400), then
`ClipService.clip_data` and the file response with the X-Feature-Count
header and `\x7bdataset\x7d_clipped.\x7bext\x7d` filename. -/
def clip_dataset_try (fs : FileSystem) (cache : Cache) (dataset : DatasetType)
    (geojson_file : ByteData) (output_format : OutputFormat) :
    Except PyExc Response × Cache × Nat :=
  if ¬ is_dataset_available fs dataset.value then
    (.error (.http 404 ("Dataset " ++ dataset.value ++
        " not found in local storage. Please ensure files are in backend/data/ folder.")),
      cache, 0)
  else if geojson_file.size > MAX_FILE_SIZE then
    (.error (.http 413 "File too large. Max size: 50.0MB"), cache, 0)
  else
    match validate_geojson_file geojson_file with
    | .error e => (.error (.http e.status_code e.detail), cache, 0)
    | .ok aoi =>
        match clip_data fs cache dataset.value aoi output_format.value with
        | ⟨.error msg, c, n⟩ => (.error (.other msg), c, n)
        | ⟨.ok (result, path), c, n⟩ =>
            let _ := path
            (.ok { status_code := 200
                   detail := ""
                   feature_count := some result.features.length
                   filename := some (dataset.value ++ "_clipped." ++ output_format.value) },
              c, n)

/-- Model of the route `POST /clip/\x7bdataset\x7d` (backend/main.py lines
55-112): the try body, wrapped by `except Exception as e` which re-raises
every exception — the 404/413/400 HTTPExceptions included, since
fastapi.HTTPException derives from Exception — as a 500 HTTPException
with detail `"Clipping failed: ..."`. -/
def clip_dataset (fs : FileSystem) (cache : Cache) (dataset : DatasetType)
    (geojson_file : ByteData) (output_format : OutputFormat) : HandlerOut :=
  match clip_dataset_try fs cache dataset geojson_file output_format with
  | (.ok r, c, n) => ⟨r, c, n⟩
  | (.error e, c, n) =>
      ⟨{ status_code := 500
         detail := "Clipping failed: " ++ e.msg
         feature_count := none
         filename := none }, c, n⟩

/-! Concrete fixtures used to evaluate the model on explicit inputs. -/

/-- Closed axis-aligned rectangle ring with corners (x1,y1) and (x2,y2). -/
def rectRing (x1 y1 x2 y2 : Int) : List (Int × Int) :=
  [(x1, y1), (x2, y1), (x2, y2), (x1, y2), (x1, y1)]

/-- GeoJSON FeatureCollection object over the given feature objects. -/
def fcJson (feats : List Json) : Json :=
  .obj [("type", .str "FeatureCollection"), ("features", .arr feats)]

/-- GeoJSON Feature carrying a Point geometry. -/
def pointFeat : Json :=
  .obj [("type", .str "Feature"),
        ("properties", .obj [("name", .str "p")]),
        ("geometry", .obj [("type", .str "Point"),
                           ("coordinates", .arr [.num 1, .num 2])])]

/-- GeoJSON Feature carrying the rectangle polygon [0,2] x [0,2]. -/
def rectFeat : Json :=
  .obj [("type", .str "Feature"),
        ("properties", .obj []),
        ("geometry", .obj [("type", .str "Polygon"),
                           ("coordinates", .arr [.arr [
                             .arr [.num 0, .num 0], .arr [.num 2, .num 0],
                             .arr [.num 2, .num 2], .arr [.num 0, .num 2],
                             .arr [.num 0, .num 0]]])])]

/-- Storage medium with no dataset files at all. -/
def fsNone : FileSystem :=
  ⟨fun _ => false, fun _ _ => none⟩

/-- GLHYMPS dataset frame: one rectangle feature in WGS84. -/
def gdfW : GeoDataFrame :=
  ⟨[{ attrs := [], geometry := .polygon (rectRing 0 0 2 2) }], some "EPSG:4326"⟩

/-- Storage medium where exactly the GLHYMPS shapefile exists and reads
as `gdfW`. -/
def fsGlhymps : FileSystem :=
  ⟨fun p => p == GLHYMPS_PATH,
   fun p l => if p == GLHYMPS_PATH && l.isNone then some gdfW else none⟩

/-- Cache state after loading GLHYMPS into an empty cache. -/
def cW : Cache := [("glhymps", gdfW)]

/-- AOI frame whose CRS differs from the dataset CRS of `gdfW`. -/
def aoiW : GeoDataFrame :=
  ⟨[{ attrs := [], geometry := .polygon (rectRing 0 0 1 1) }], some "EPSG:3857"⟩

/-- AOI frame disjoint from every feature of `gdfW` (rectangle [5,7] x [5,7]). -/
def aoiDisjoint : GeoDataFrame :=
  ⟨[{ attrs := [], geometry := .polygon (rectRing 5 5 7 7) }], some "EPSG:4326"⟩

/-- Geometry-kind discriminator used to state that a frame consists of
point geometries only. -/
def Geometry.isPoint : Geometry → Bool
  | .point _ _ => true
  | _ => false

/-! Helper lemmas about the cache and the overlay. -/

/-- Dict lookup after dict assignment of the same key returns the
assigned value. -/
theorem Cache.lookup_insert (c : Cache) (k : String) (d : GeoDataFrame) :
    Cache.lookup (Cache.insert c k d) k = some d := by
  induction c with
  | nil => simp [Cache.insert, Cache.lookup]
  | cons hd tl ih =>
      obtain ⟨k0, v0⟩ := hd
      by_cases hk : k0 = k
      · simp [Cache.insert, Cache.lookup, hk]
      · simp [Cache.insert, Cache.lookup, hk, ih]

/-- CRS reconciliation never changes the AOI feature rows, only the CRS. -/
theorem reconcileAOI_features (aoi full_data : GeoDataFrame) :
    (reconcileAOI aoi full_data).features = aoi.features := by
  unfold reconcileAOI to_crs
  split <;> rfl

/-- Overlay of frames all of whose feature pairs have empty geometric
intersection has no feature rows. -/
theorem overlay_features_nil (df1 df2 : GeoDataFrame)
    (h : ∀ f ∈ df1.features, ∀ g ∈ df2.features,
      interG f.geometry g.geometry = none) :
    (overlay df1 df2).features = [] := by
  unfold overlay
  refine List.flatMap_eq_nil_iff.mpr fun f hf => ?_
  refine List.filterMap_eq_nil_iff.mpr fun g hg => ?_
  rw [h f hf g hg]
  rfl

/-! Claim theorems. -/

/-- C1: the claim says a request for an unavailable dataset yields HTTP
status 404 with no cache mutation.  At an explicit such request (no file
on disk), the code instead responds 500: the HTTPException(404) raised in
the try block of `clip_dataset` (backend/main.py line 74) is caught by
the trailing `except Exception` (line 110) and re-raised as a 500 with
the 404 detail folded into the message.  The cache is indeed not mutated
and the storage file is not read. -/
theorem c1_unavailable_dataset_yields_500_not_404_cache_untouched :
    (clip_dataset fsNone [] .glim (.jsonVal 10 (fcJson [rectFeat])) .geojson).response.status_code
      = 500 ∧
    (clip_dataset fsNone [] .glim (.jsonVal 10 (fcJson [rectFeat])) .geojson).response.detail
      = "Clipping failed: 404: Dataset glim not found in local storage. Please ensure files are in backend/data/ folder." ∧
    (clip_dataset fsNone [] .glim (.jsonVal 10 (fcJson [rectFeat])) .geojson).cache = [] ∧
    (clip_dataset fsNone [] .glim (.jsonVal 10 (fcJson [rectFeat])) .geojson).reads = 0 :=
  ⟨by rfl, by rfl, by rfl, by rfl⟩

/-- C2: the claim says an upload larger than MAX_FILE_SIZE is rejected
with HTTP status 413 before any JSON parsing.  At an explicit oversized
upload on an available dataset, the rejection does happen before parsing
(the response is identical whether the oversized bytes are JSON or not),
but the code responds 500: the HTTPException(413) raised at
backend/main.py line 83 is caught by the `except Exception` at line 110
and re-raised as a 500. -/
theorem c2_oversized_upload_yields_500_not_413_before_parsing :
    (clip_dataset fsGlhymps [] .glhymps (.notJson (MAX_FILE_SIZE + 1)) .geojson).response.status_code
      = 500 ∧
    (clip_dataset fsGlhymps [] .glhymps (.notJson (MAX_FILE_SIZE + 1)) .geojson).response.detail
      = "Clipping failed: 413: File too large. Max size: 50.0MB" ∧
    clip_dataset fsGlhymps [] .glhymps (.jsonVal (MAX_FILE_SIZE + 1) (fcJson [rectFeat])) .geojson
      = clip_dataset fsGlhymps [] .glhymps (.notJson (MAX_FILE_SIZE + 1)) .geojson ∧
    (clip_dataset fsGlhymps [] .glhymps (.notJson (MAX_FILE_SIZE + 1)) .geojson).reads = 0 :=
  ⟨by rfl, by rfl, by rfl, by rfl⟩

/-- C3: the claim says malformed JSON bytes make the AOI validator fail
with the 400-status MalformedInput/InvalidGeoJSON error and the pipeline
never reaches a dataset load.  At an explicit malformed upload on an
available dataset, the validator does fail with a 400 HTTPException and
no dataset load happens (zero reads, cache untouched), but the
client-facing response is 500: the validator 400 raised inside the try
block of backend/main.py is caught by the `except Exception` at line 110
and re-raised as a 500. -/
theorem c3_malformed_json_validator_400_but_response_500_no_dataset_load :
    validate_geojson_file (.notJson 10)
      = .error ⟨400, "Invalid JSON format: parse error"⟩ ∧
    (clip_dataset fsGlhymps [] .glhymps (.notJson 10) .geojson).response.status_code = 500 ∧
    (clip_dataset fsGlhymps [] .glhymps (.notJson 10) .geojson).response.detail
      = "Clipping failed: 400: Invalid JSON format: parse error" ∧
    (clip_dataset fsGlhymps [] .glhymps (.notJson 10) .geojson).reads = 0 ∧
    (clip_dataset fsGlhymps [] .glhymps (.notJson 10) .geojson).cache = [] :=
  ⟨by rfl, by rfl, by rfl, by rfl, by rfl⟩

/-- C4: loading a dataset through the ClipService cache twice in
sequence returns the same loaded frame both times, the second call is
served from memory (zero storage reads), and the first call reads the
storage at most once. -/
theorem c4_cache_load_idempotent_reads_at_most_once
    (fs : FileSystem) (cache : Cache) (ds : String)
    (d : GeoDataFrame) (c1 : Cache) (n : Nat)
    (h : load_dataset fs cache ds = ⟨.ok d, c1, n⟩) :
    load_dataset fs c1 ds = ⟨.ok d, c1, 0⟩ ∧ n ≤ 1 := by
  unfold load_dataset at h ⊢
  cases hl : Cache.lookup cache ds with
  | some d0 =>
      rw [hl] at h
      obtain ⟨h1, h2, h3⟩ := LoadOut.mk.injEq .. ▸ h
      obtain rfl : d0 = d := Except.ok.injEq .. ▸ h1
      subst h2 h3
      rw [hl]
      exact ⟨rfl, Nat.zero_le 1⟩
  | none =>
      rw [hl] at h
      cases hr : read_dataset_file fs ds with
      | none => rw [hr] at h; cases LoadOut.mk.injEq .. ▸ h with
          | intro h1 _ => exact absurd h1 (by simp)
      | some d0 =>
          rw [hr] at h
          obtain ⟨h1, h2, h3⟩ := LoadOut.mk.injEq .. ▸ h
          obtain rfl : d0 = d := Except.ok.injEq .. ▸ h1
          subst h2 h3
          rw [Cache.lookup_insert]
          exact ⟨rfl, Nat.le_refl 1⟩

/-- C4 witness: loading GLHYMPS into an empty cache reads the shapefile
once; the immediate second load returns the same frame from memory with
no storage access. -/
theorem c4_witness :
    load_dataset fsGlhymps [] "glhymps" = ⟨.ok gdfW, cW, 1⟩ ∧
    (load_dataset fsGlhymps cW "glhymps" = ⟨.ok gdfW, cW, 0⟩ ∧ 1 ≤ 1) :=
  ⟨by rfl, c4_cache_load_idempotent_reads_at_most_once fsGlhymps [] "glhymps" gdfW cW 1 (by rfl)⟩

/-- C5: when the dataset is not cached and its file cannot be read, the
load step raises and leaves the cache dict unchanged (no entry is
inserted), and a later call for the same name attempts the read again
and succeeds once the file is readable — no negative caching. -/
theorem c5_failed_load_keeps_cache_clean_and_is_retryable
    (fs : FileSystem) (cache : Cache) (ds : String)
    (hmiss : Cache.lookup cache ds = none)
    (hfail : read_dataset_file fs ds = none) :
    (∃ e, load_dataset fs cache ds = ⟨.error e, cache, 1⟩) ∧
    ∀ fs2 d, read_dataset_file fs2 ds = some d →
      load_dataset fs2 cache ds = ⟨.ok d, Cache.insert cache ds d, 1⟩ := by
  constructor
  · exact ⟨"failed to read dataset " ++ ds, by unfold load_dataset; rw [hmiss, hfail]⟩
  · intro fs2 d hread
    unfold load_dataset
    rw [hmiss, hread]

/-- C5 witness: with no file on disk the GLHYMPS load fails and the
cache stays empty; retrying against a storage medium that now has the
file reads it and succeeds. -/
theorem c5_witness :
    ((∃ e, load_dataset fsNone [] "glhymps" = ⟨.error e, [], 1⟩) ∧
     ∀ fs2 d, read_dataset_file fs2 "glhymps" = some d →
       load_dataset fs2 [] "glhymps" = ⟨.ok d, Cache.insert [] "glhymps" d, 1⟩) :=
  c5_failed_load_keeps_cache_clean_and_is_retryable fsNone [] "glhymps" rfl rfl

/-- Saving under any member of the OutputFormat enum finds its entry in
the format table and yields a temporary file path. -/
theorem save_result_value_ok (g : GeoDataFrame) (fmt : OutputFormat) :
    ∃ p, save_result g fmt.value = .ok p := by
  cases fmt <;> exact ⟨_, rfl⟩

/-- C6: when the AOI CRS differs from the dataset CRS, `clip_data`
reprojects the AOI to the dataset CRS and passes the loaded dataset frame
to the overlay unchanged (it is never reprojected); the resulting clipped
frame carries the dataset CRS, and the cache still holds the dataset
exactly as loaded. -/
theorem c6_aoi_reprojected_dataset_untouched_result_has_dataset_crs
    (fs : FileSystem) (cache : Cache) (ds : String) (aoi full_data : GeoDataFrame)
    (fmt : OutputFormat) (c : Cache) (n : Nat) (res : GeoDataFrame) (path : String)
    (c2 : Cache) (n2 : Nat)
    (hload : load_dataset fs cache ds = ⟨.ok full_data, c, n⟩)
    (hcrs : aoi.crs ≠ full_data.crs)
    (hclip : clip_data fs cache ds aoi fmt.value = ⟨.ok (res, path), c2, n2⟩) :
    res = overlay full_data (to_crs aoi full_data.crs) ∧
    res.crs = full_data.crs ∧ c2 = c := by
  unfold clip_data at hclip
  rw [hload] at hclip
  dsimp only at hclip
  rw [show reconcileAOI aoi full_data = to_crs aoi full_data.crs from
    by unfold reconcileAOI; exact if_pos hcrs] at hclip
  obtain ⟨p, hp⟩ := save_result_value_ok (overlay full_data (to_crs aoi full_data.crs)) fmt
  rw [hp] at hclip
  simp only [ClipOut.mk.injEq, Except.ok.injEq, Prod.mk.injEq] at hclip
  obtain ⟨⟨h1, h2⟩, h3, h4⟩ := hclip
  exact ⟨h1.symm, h1 ▸ rfl, h3.symm⟩

/-- C6 witness: clipping `gdfW` (CRS EPSG:4326) with an AOI declared in
EPSG:3857 reprojects the AOI, leaves the dataset frame alone, and
returns a result tagged with the dataset CRS. -/
theorem c6_witness :
    load_dataset fsGlhymps [] "glhymps" = ⟨.ok gdfW, cW, 1⟩ ∧
    aoiW.crs ≠ gdfW.crs ∧
    clip_data fsGlhymps [] "glhymps" aoiW OutputFormat.geojson.value
      = ⟨.ok (overlay gdfW (to_crs aoiW gdfW.crs), "tmpfile.geojson"), cW, 1⟩ ∧
    (overlay gdfW (to_crs aoiW gdfW.crs) = overlay gdfW (to_crs aoiW gdfW.crs) ∧
     (overlay gdfW (to_crs aoiW gdfW.crs)).crs = gdfW.crs ∧ cW = cW) :=
  ⟨by rfl, by decide, by rfl,
   c6_aoi_reprojected_dataset_untouched_result_has_dataset_crs
     fsGlhymps [] "glhymps" aoiW gdfW .geojson cW 1
     (overlay gdfW (to_crs aoiW gdfW.crs)) "tmpfile.geojson" cW 1
     (by rfl) (by decide) (by rfl)⟩

/-- C7: for a valid AOI and a loaded dataset none of whose features
geometrically overlaps any AOI feature, `clip_data` succeeds — the
serialization of the empty result included — and the clipped frame has
zero features. -/
theorem c7_zero_overlap_gives_empty_result_without_error
    (fs : FileSystem) (cache : Cache) (ds : String) (aoi full_data : GeoDataFrame)
    (fmt : OutputFormat) (c : Cache) (n : Nat)
    (hload : load_dataset fs cache ds = ⟨.ok full_data, c, n⟩)
    (hvalid : ∀ g ∈ aoi.features, g.geometry.is_valid = true)
    (hdisj : ∀ f ∈ full_data.features, ∀ g ∈ aoi.features,
      interG f.geometry g.geometry = none) :
    ∃ res path, clip_data fs cache ds aoi fmt.value = ⟨.ok (res, path), c, n⟩ ∧
      res.features = [] := by
  have hfeat : (overlay full_data (reconcileAOI aoi full_data)).features = [] := by
    apply overlay_features_nil
    intro f hf g hg
    rw [reconcileAOI_features] at hg
    exact hdisj f hf g hg
  cases fmt with
  | geojson =>
      refine ⟨overlay full_data (reconcileAOI aoi full_data), "tmpfile.geojson", ?_, hfeat⟩
      unfold clip_data
      rw [hload]
      rfl
  | shapefile =>
      refine ⟨overlay full_data (reconcileAOI aoi full_data), "tmpfile.shp", ?_, hfeat⟩
      unfold clip_data
      rw [hload]
      rfl
  | gpkg =>
      refine ⟨overlay full_data (reconcileAOI aoi full_data), "tmpfile.gpkg", ?_, hfeat⟩
      unfold clip_data
      rw [hload]
      rfl

/-- C7 witness: the dataset rectangle [0,2] x [0,2] and the valid AOI
rectangle [5,7] x [7,7] do not overlap, and clipping returns a
zero-feature frame with no error. -/
theorem c7_witness :
    load_dataset fsGlhymps [] "glhymps" = ⟨.ok gdfW, cW, 1⟩ ∧
    (∀ g ∈ aoiDisjoint.features, g.geometry.is_valid = true) ∧
    (∀ f ∈ gdfW.features, ∀ g ∈ aoiDisjoint.features,
      interG f.geometry g.geometry = none) ∧
    (∃ res path,
      clip_data fsGlhymps [] "glhymps" aoiDisjoint OutputFormat.geojson.value
        = ⟨.ok (res, path), cW, 1⟩ ∧ res.features = []) :=
  ⟨by rfl, by decide, by decide,
   c7_zero_overlap_gives_empty_result_without_error
     fsGlhymps [] "glhymps" aoiDisjoint gdfW .geojson cW 1
     (by rfl) (by decide) (by decide)⟩

/-- C8: an AOI payload that the validator accepts but that declares no
coordinate reference system comes back tagged with EPSG:4326 (WGS84),
with its feature rows unchanged. -/
theorem c8_missing_crs_defaults_to_wgs84
    (nbytes : Nat) (j : Json) (g0 r : GeoDataFrame)
    (hread : readGeoJson j = some g0)
    (hnocrs : g0.crs = none)
    (hok : validate_geojson_file (.jsonVal nbytes j) = .ok r) :
    r.crs = some "EPSG:4326" ∧ r.features = g0.features := by
  cases j with
  | obj kvs =>
      simp only [validate_geojson_file] at hok
      by_cases ht : (jlookup kvs "type").isNone
      · rw [if_pos ht] at hok
        exact absurd hok (by simp)
      · rw [if_neg ht, hread] at hok
        by_cases he : g0.features.isEmpty
        · simp only [he, if_pos] at hok
          exact absurd hok (by simp)
        · simp only [he, Bool.false_eq_true, if_false, if_neg] at hok
          by_cases hv : g0.features.all (fun f => f.geometry.is_valid)
          · simp only [hv, not_true, if_neg, if_false, Bool.not_true,
              Bool.false_eq_true, reduceIte, hnocrs, Option.isNone_none] at hok
            obtain rfl := (Except.ok.injEq .. ▸ hok).symm
            exact ⟨rfl, rfl⟩
          · simp only [hv, Bool.not_false, if_pos, Bool.false_eq_true, reduceIte] at hok
            exact absurd hok (by simp)
  | null => simp [readGeoJson] at hread
  | bool b => simp [readGeoJson] at hread
  | num m => simp [readGeoJson] at hread
  | str s => simp [readGeoJson] at hread
  | arr xs => simp [readGeoJson] at hread

/-- C8 witness: a FeatureCollection without a crs member is accepted and
comes back tagged EPSG:4326. -/
theorem c8_witness :
    readGeoJson (fcJson [rectFeat])
      = some ⟨[{ attrs := [], geometry := .polygon (rectRing 0 0 2 2) }], none⟩ ∧
    (GeoDataFrame.crs ⟨[{ attrs := [], geometry := .polygon (rectRing 0 0 2 2) }], none⟩
      = none) ∧
    validate_geojson_file (.jsonVal 100 (fcJson [rectFeat]))
      = .ok ⟨[{ attrs := [], geometry := .polygon (rectRing 0 0 2 2) }], some "EPSG:4326"⟩ ∧
    ((GeoDataFrame.crs ⟨[{ attrs := [], geometry := .polygon (rectRing 0 0 2 2) }], some "EPSG:4326"⟩)
        = some "EPSG:4326" ∧
     (GeoDataFrame.features ⟨[{ attrs := [], geometry := .polygon (rectRing 0 0 2 2) }], some "EPSG:4326"⟩)
        = GeoDataFrame.features ⟨[{ attrs := [], geometry := .polygon (rectRing 0 0 2 2) }], none⟩) :=
  ⟨by rfl, by rfl, by rfl,
   c8_missing_crs_defaults_to_wgs84 100 (fcJson [rectFeat])
     ⟨[{ attrs := [], geometry := .polygon (rectRing 0 0 2 2) }], none⟩
     ⟨[{ attrs := [], geometry := .polygon (rectRing 0 0 2 2) }], some "EPSG:4326"⟩
     (by rfl) (by rfl) (by rfl)⟩

/-- C10: there is an uploaded payload whose feature geometries are all
points — not polygons — that the AOI validator nevertheless accepts and
returns: the validator checks validity and non-emptiness only, never the
geometry kind. -/
theorem c10_validator_accepts_non_polygon_geometries :
    ∃ b r, validate_geojson_file b = .ok r ∧ r.features ≠ [] ∧
      r.features.all (fun f => f.geometry.isPoint) = true := by
  refine ⟨.jsonVal 100 (fcJson [pointFeat]),
    ⟨[{ attrs := [("name", .str "p")], geometry := .point 1 2 }], some "EPSG:4326"⟩,
    by rfl, ?_, by rfl⟩
  simp

end GeoGlim
